import Mathlib

/-!
Shallow embedding of the Eigen type casters in include/nanobind/eigen.h:
the return-value policy resolution, the plain-object caster
(from_python / from_cpp), the expression caster, and the Map caster.
Pointers are modelled as natural-number addresses; element storage is a
flat list in the storage order of the value; heap allocation is modelled
by passing in a fresh address.
-/

namespace NanobindEigen

/-- Return-value policies of the binding library (the rv_policy
enumeration consumed by eigen.h). -/
inductive rv_policy where
  | take_ownership
  | copy
  | move
  | reference
  | reference_internal
  | none
  | automatic
  | automatic_reference
deriving DecidableEq

/-- Compile-time facts about an Eigen type T that eigen.h branches on:
the tensor dimension count T.NumDimensions (1 for vectors, 2 for
matrices), whether T.SizeAtCompileTime is a fixed constant rather than
Eigen.Dynamic, sizeof(Scalar) in bytes, and whether the storage order is
row-major. -/
structure EigenTypeFacts where
  ndims : Nat
  fixedSize : Bool
  scalarSize : Nat
  rowMajor : Bool
deriving DecidableEq

/-- A concrete plain (owning, packed) Eigen value: the address of its
element storage, its extents, and its elements in storage order. A
one-dimensional value is represented with cols = 1 and its length in
rows. -/
structure PlainValue (α : Type) where
  ptr : Nat
  rows : Nat
  cols : Nat
  data : List α
deriving DecidableEq

/-- Element count, as returned by v.size() on a dense Eigen value. -/
def PlainValue.size {α : Type} (v : PlainValue α) : Nat :=
  v.rows * v.cols

/-- Inner stride of a plain packed Eigen value, as v.innerStride(). -/
def innerStride {α : Type} (_tf : EigenTypeFacts) (_v : PlainValue α) : Int :=
  1

/-- Row stride of a plain packed Eigen value, as v.rowStride():
the distance between vertically adjacent elements, which is 1 for
column-major storage and the column count for row-major storage. -/
def rowStride {α : Type} (tf : EigenTypeFacts) (v : PlainValue α) : Int :=
  if tf.rowMajor then (v.cols : Int) else 1

/-- Column stride of a plain packed Eigen value, as v.colStride(). -/
def colStride {α : Type} (tf : EigenTypeFacts) (v : PlainValue α) : Int :=
  if tf.rowMajor then 1 else (v.rows : Int)

/-- The descriptor and content handed to or received from the generic
tensor caster: data pointer, shape, per-axis strides, the target of the
owner capsule when one is attached (the release callback of that capsule
frees exactly this address), and the elements reachable through the data
pointer in storage order. -/
structure Tensor (α : Type) where
  ptr : Nat
  shape : List Nat
  strides : List Int
  ownerPtr : Option Nat
  data : List α
deriving DecidableEq

/-- The policy switch in the plain caster from_cpp on a const reference:
automatic becomes copy, automatic_reference becomes reference, and move
is downgraded to copy when the size is a compile-time constant or the
element count is below 1024 / sizeof(Scalar) (integer division, exactly
as the C++ expression 1024 / sizeof(Scalar) computes it); every other
policy passes through unchanged. -/
def resolve_policy (policy : rv_policy) (fixedSize : Bool) (count : Nat)
    (scalarSize : Nat) : rv_policy :=
  match policy with
  | rv_policy.automatic => rv_policy.copy
  | rv_policy.automatic_reference => rv_policy.reference
  | rv_policy.move =>
      if fixedSize || count < 1024 / scalarSize then rv_policy.copy
      else rv_policy.move
  | p => p

/-- Everything the plain caster from_cpp produces: the resolved effective
policy, the capsule target when an owning capsule was created, the caller
value as the call leaves it, the tensor descriptor handed to the tensor
caster, and the policy passed on with it. -/
structure OutboundResult (α : Type) where
  effPolicy : rv_policy
  capsuleTarget : Option Nat
  callerAfter : PlainValue α
  tensor : Tensor α
  tensorPolicy : rv_policy
deriving DecidableEq

/-- The plain caster from_cpp(const T and, policy, cleanup): derive shape
and strides from the value, resolve the policy, and on an effective move
heap-allocate a new value at the fresh address, wrap it in a capsule
whose release callback deletes exactly that allocation, redirect the data
pointer to the allocation, and pass the tensor on with policy reference.
Because the source is a const reference, new T(std::move(v)) selects the
copy constructor, so the allocation holds a copy and the caller value is
left unchanged. -/
def from_cpp_const {α : Type} (tf : EigenTypeFacts) (v : PlainValue α)
    (policy : rv_policy) (freshPtr : Nat) : OutboundResult α :=
  let shape : List Nat :=
    if tf.ndims = 1 then [v.size] else [v.rows, v.cols]
  let strides : List Int :=
    if tf.ndims = 1 then [innerStride tf v]
    else [rowStride tf v, colStride tf v]
  let p := resolve_policy policy tf.fixedSize v.size tf.scalarSize
  if p = rv_policy.move then
    { effPolicy := p,
      capsuleTarget := Option.some freshPtr,
      callerAfter := v,
      tensor := { ptr := freshPtr, shape := shape, strides := strides,
                  ownerPtr := Option.some freshPtr, data := v.data },
      tensorPolicy := rv_policy.reference }
  else
    { effPolicy := p,
      capsuleTarget := Option.none,
      callerAfter := v,
      tensor := { ptr := v.ptr, shape := shape, strides := strides,
                  ownerPtr := Option.none, data := v.data },
      tensorPolicy := p }

/-- The plain caster from_cpp(T and-and, policy, cleanup): a requested
automatic or automatic_reference policy is first rewritten to move, then
the const-reference overload is invoked on the value. -/
def from_cpp_rvalue {α : Type} (tf : EigenTypeFacts) (v : PlainValue α)
    (policy : rv_policy) (freshPtr : Nat) : OutboundResult α :=
  let p :=
    if policy = rv_policy.automatic ∨ policy = rv_policy.automatic_reference
    then rv_policy.move else policy
  from_cpp_const tf v p freshPtr

/-- A foreign array object as the buffer protocol exposes it: a dtype
tag, the address of its storage, shape, per-axis strides, and its
elements. -/
structure ForeignArray (α : Type) where
  dtypeCode : Nat
  ptr : Nat
  shape : List Nat
  strides : List Int
  data : List α
deriving DecidableEq

/-- Modelled from the spec: the generic tensor caster
(nanobind/tensor.h, the bufferFromForeign interface of section 6) is not
under src. Per the interface it accepts the foreign object only when the
dtype tag matches, the rank matches, the extents satisfy the compile-time
shape constraints and the strides satisfy the declared contiguity, and on
success exposes pointer, shape, strides and data unchanged; it reports
failure as a boolean result and raises nothing. The shape and stride
checks are abstracted as boolean predicates. -/
def tensor_caster_from_python {α : Type} (expectedDtype expectedRank : Nat)
    (extentOk : List Nat → Bool) (strideOk : List Int → Bool)
    (src : ForeignArray α) : Option (Tensor α) :=
  if src.dtypeCode = expectedDtype ∧ src.shape.length = expectedRank ∧
     extentOk src.shape = true ∧ strideOk src.strides = true then
    Option.some { ptr := src.ptr, shape := src.shape, strides := src.strides,
                  ownerPtr := Option.none, data := src.data }
  else
    Option.none

/-- The plain caster from_python: if the delegated tensor caster call
failed, return failure; otherwise resize the native value to the tensor
extents (shape(0) for a one-dimensional type, shape(0) by shape(1)
otherwise, the freshly resized storage living at the fresh address) and
memcpy that many elements from the tensor data into the native storage.
The delegated call result is passed in as an argument. -/
def from_python {α : Type} (tf : EigenTypeFacts) (tcRes : Option (Tensor α))
    (freshPtr : Nat) : Option (PlainValue α) :=
  match tcRes with
  | Option.none => Option.none
  | Option.some t =>
      if tf.ndims = 1 then
        Option.some { ptr := freshPtr, rows := t.shape.getD 0 0, cols := 1,
                      data := t.data.take (t.shape.getD 0 0) }
      else
        Option.some { ptr := freshPtr, rows := t.shape.getD 0 0,
                      cols := t.shape.getD 1 0,
                      data := t.data.take
                        (t.shape.getD 0 0 * t.shape.getD 1 0) }

/-- A strided view (Eigen::Map) value: the address of the storage it
views, its extents, its runtime strides, and the elements visible through
it. A one-dimensional view is represented with cols = 1. -/
structure MapValue (α : Type) where
  ptr : Nat
  rows : Nat
  cols : Nat
  innerStrideVal : Int
  rowStrideVal : Int
  colStrideVal : Int
  data : List α
deriving DecidableEq

/-- Element count of a view, as v.size(). -/
def MapValue.size {α : Type} (v : MapValue α) : Nat :=
  v.rows * v.cols

/-- The Map caster from_cpp: the requested policy parameter is unnamed
and ignored; the tensor descriptor is built directly from the view
pointer, extents and strides, with an empty owner handle, and is always
passed on with policy reference. Returns the tensor together with the
policy handed to the tensor caster. -/
def map_from_cpp {α : Type} (tf : EigenTypeFacts) (v : MapValue α)
    (_policy : rv_policy) : Tensor α × rv_policy :=
  ({ ptr := v.ptr,
     shape := if tf.ndims = 1 then [v.size] else [v.rows, v.cols],
     strides := if tf.ndims = 1 then [v.innerStrideVal]
                else [v.rowStrideVal, v.colStrideVal],
     ownerPtr := Option.none,
     data := v.data },
   rv_policy.reference)

/-- The Map caster from_python simply forwards the delegated tensor
caster call and stores its value; success is exactly the success of the
delegated call. -/
def map_from_python {α : Type} (tcRes : Option (Tensor α)) :
    Option (Tensor α) :=
  tcRes

/-- The Map caster conversion operator: builds the view from the stored
tensor as Map(t.data(), t.shape(0), t.shape(1)). The two extent reads
are modelled as fallible lookups so that an index at or beyond the
tensor rank is observable as failure; the C++ reads are unchecked.
Returns pointer, the two extents read, and the data. -/
def map_operator_cast {α : Type} (t : Tensor α) :
    Option (Nat × Nat × Nat × List α) :=
  match t.shape.get? 0, t.shape.get? 1 with
  | Option.some r, Option.some c => Option.some (t.ptr, r, c, t.data)
  | _, _ => Option.none

/-- Materialization performed by the expression caster for a sum
expression: converting the expression to the concrete Array type
evaluates it into freshly allocated storage holding the element-wise
sums, with the extents of the operands. -/
def materialize_xpr_sum {α : Type} [Add α] (a b : PlainValue α)
    (freshPtr : Nat) : PlainValue α :=
  { ptr := freshPtr, rows := a.rows, cols := a.cols,
    data := List.zipWith (fun x y => x + y) a.data b.data }

/-- The expression caster from_cpp for a sum expression: the forwarded
argument is converted to the concrete Array type, which materializes the
expression into a fresh temporary, and that temporary binds to the
rvalue overload of the plain caster from_cpp, which performs the whole
outbound path on it. -/
def xpr_sum_from_cpp {α : Type} [Add α] (tf : EigenTypeFacts)
    (a b : PlainValue α) (policy : rv_policy) (freshMat freshMove : Nat) :
    OutboundResult α :=
  from_cpp_rvalue tf (materialize_xpr_sum a b freshMat) policy freshMove

/-- The expression caster declares from_python deleted: the dispatch
mechanism offers no inbound conversion for expression types. -/
def xpr_has_from_python : Bool :=
  false

end NanobindEigen

namespace NanobindEigen

/-- Helper: the tensor emitted by the const-reference outbound path
always carries the caller elements, whichever branch is taken. -/
theorem from_cpp_const_tensor_data {α : Type} (tf : EigenTypeFacts)
    (v : PlainValue α) (p : rv_policy) (f : Nat) :
    (from_cpp_const tf v p f).tensor.data = v.data := by
  unfold from_cpp_const
  by_cases hm : resolve_policy p tf.fixedSize v.size tf.scalarSize =
      rv_policy.move <;> simp [hm]

/-- Helper: the tensor shape emitted by the const-reference outbound
path is derived from the value extents, whichever branch is taken. -/
theorem from_cpp_const_tensor_shape {α : Type} (tf : EigenTypeFacts)
    (v : PlainValue α) (p : rv_policy) (f : Nat) :
    (from_cpp_const tf v p f).tensor.shape =
      (if tf.ndims = 1 then [v.size] else [v.rows, v.cols]) := by
  unfold from_cpp_const
  by_cases hm : resolve_policy p tf.fixedSize v.size tf.scalarSize =
      rv_policy.move <;> simp [hm]

/-- Helper: the const-reference outbound path returns the caller value
unchanged, whichever branch is taken. -/
theorem from_cpp_const_caller {α : Type} (tf : EigenTypeFacts)
    (v : PlainValue α) (p : rv_policy) (f : Nat) :
    (from_cpp_const tf v p f).callerAfter = v := by
  unfold from_cpp_const
  by_cases hm : resolve_policy p tf.fixedSize v.size tf.scalarSize =
      rv_policy.move <;> simp [hm]

/-- Helper: the emitted tensor data pointer is either the caller storage
address or the fresh allocation address. -/
theorem from_cpp_const_tensor_ptr_or {α : Type} (tf : EigenTypeFacts)
    (v : PlainValue α) (p : rv_policy) (f : Nat) :
    (from_cpp_const tf v p f).tensor.ptr = v.ptr ∨
    (from_cpp_const tf v p f).tensor.ptr = f := by
  unfold from_cpp_const
  by_cases hm : resolve_policy p tf.fixedSize v.size tf.scalarSize =
      rv_policy.move
  · exact Or.inr (by simp [hm])
  · exact Or.inl (by simp [hm])

/-- Helper: the rvalue overload is the const-reference overload after
rewriting the two automatic policies to move. -/
theorem from_cpp_rvalue_eq {α : Type} (tf : EigenTypeFacts)
    (v : PlainValue α) (policy : rv_policy) (f : Nat) :
    from_cpp_rvalue tf v policy f =
      from_cpp_const tf v
        (if policy = rv_policy.automatic ∨
            policy = rv_policy.automatic_reference
         then rv_policy.move else policy) f :=
  rfl

/-- C1. The spec states that for a requested move the resolver yields
copy exactly when elementCount * elementSize is below 1024 bytes. The
code compares elementCount against 1024 / elementSize with integer
division, which is a strictly weaker bound when the element size does
not divide 1024: at elementCount 341 and elementSize 3 the footprint is
1023 bytes, below the threshold, yet the resolver keeps move. -/
theorem resolve_move_threshold_not_bytewise :
    resolve_policy rv_policy.move false 341 3 = rv_policy.move ∧
    341 * 3 < 1024 := by
  decide

/-- C1 (amended). For a requested move the resolver yields copy whenever
the size is compile-time fixed, and for a dynamically sized type it
yields copy exactly when the element count is below 1024 / elementSize
under integer division (which agrees with elementCount * elementSize
being below 1024 bytes whenever the element size divides 1024); in every
other case it keeps move. -/
theorem resolve_move_effective_rule (n s : Nat) :
    resolve_policy rv_policy.move true n s = rv_policy.copy ∧
    (resolve_policy rv_policy.move false n s = rv_policy.copy ↔
      n < 1024 / s) := by
  refine ⟨rfl, ?_⟩
  by_cases h : n < 1024 / s <;> simp [resolve_policy, h]

/-- C2. The spec states that Automatic resolves to Copy and
AutomaticReference to Reference regardless of whether the value is
passed by const reference or as an rvalue. On the rvalue overload both
are first rewritten to move, so a fixed-size value converted as an
rvalue with requested AutomaticReference resolves to copy, not
reference. -/
theorem automatic_reference_rvalue_not_reference :
    (from_cpp_rvalue ⟨1, true, 4, false⟩
        (⟨0, 3, 1, [1, 2, 3]⟩ : PlainValue Int)
        rv_policy.automatic_reference 9).effPolicy = rv_policy.copy ∧
    rv_policy.copy ≠ rv_policy.reference := by
  decide

/-- C2 (amended). On the const-reference overload a requested Automatic
resolves to copy and a requested AutomaticReference to reference; on the
rvalue overload both requests are rewritten to move before resolution,
so the conversion proceeds exactly as a requested move does there. -/
theorem automatic_policies_resolution {α : Type} (tf : EigenTypeFacts)
    (v : PlainValue α) (freshPtr : Nat) :
    (from_cpp_const tf v rv_policy.automatic freshPtr).effPolicy =
      rv_policy.copy ∧
    (from_cpp_const tf v rv_policy.automatic_reference freshPtr).effPolicy =
      rv_policy.reference ∧
    from_cpp_rvalue tf v rv_policy.automatic freshPtr =
      from_cpp_const tf v rv_policy.move freshPtr ∧
    from_cpp_rvalue tf v rv_policy.automatic_reference freshPtr =
      from_cpp_const tf v rv_policy.move freshPtr :=
  ⟨rfl, rfl, rfl, rfl⟩

/-- C3. When the resolved policy for a requested move is move, the
conversion allocates a fresh native value holding the caller elements,
installs a capsule whose release callback deletes exactly that
allocation, redirects the tensor data pointer to the allocation, makes
the capsule the owner handle of the emitted tensor, and passes policy
reference on to the tensor caster. -/
theorem move_policy_capsule_contract {α : Type} (tf : EigenTypeFacts)
    (v : PlainValue α) (freshPtr : Nat)
    (h : resolve_policy rv_policy.move tf.fixedSize v.size tf.scalarSize =
      rv_policy.move) :
    (from_cpp_const tf v rv_policy.move freshPtr).effPolicy =
      rv_policy.move ∧
    (from_cpp_const tf v rv_policy.move freshPtr).capsuleTarget =
      Option.some freshPtr ∧
    (from_cpp_const tf v rv_policy.move freshPtr).tensor.ptr = freshPtr ∧
    (from_cpp_const tf v rv_policy.move freshPtr).tensor.ownerPtr =
      Option.some freshPtr ∧
    (from_cpp_const tf v rv_policy.move freshPtr).tensor.data = v.data ∧
    (from_cpp_const tf v rv_policy.move freshPtr).tensorPolicy =
      rv_policy.reference := by
  simp [from_cpp_const, h]

/-- C3 witness: a dynamically sized 16 by 16 matrix of 4-byte elements
occupies exactly 1024 bytes, so a requested move stays a move and the
capsule contract applies. -/
theorem move_policy_capsule_contract_witness :
    (from_cpp_const ⟨2, false, 4, true⟩
        (⟨7, 16, 16, List.replicate 256 (0 : Int)⟩ : PlainValue Int)
        rv_policy.move 42).capsuleTarget = Option.some 42 ∧
    (from_cpp_const ⟨2, false, 4, true⟩
        (⟨7, 16, 16, List.replicate 256 (0 : Int)⟩ : PlainValue Int)
        rv_policy.move 42).tensorPolicy = rv_policy.reference :=
  ⟨(move_policy_capsule_contract _ _ _ (by decide)).2.1,
   (move_policy_capsule_contract _ _ _ (by decide)).2.2.2.2.2⟩

/-- C4. The Map caster from_cpp ignores the requested policy and always
hands the tensor caster a descriptor with policy reference, an empty
owner handle, the data pointer of the view itself, and the view elements
without copying. -/
theorem map_from_cpp_zero_copy_reference {α : Type} (tf : EigenTypeFacts)
    (v : MapValue α) (policy : rv_policy) :
    (map_from_cpp tf v policy).2 = rv_policy.reference ∧
    (map_from_cpp tf v policy).1.ownerPtr = Option.none ∧
    (map_from_cpp tf v policy).1.ptr = v.ptr ∧
    (map_from_cpp tf v policy).1.data = v.data :=
  ⟨rfl, rfl, rfl, rfl⟩

/-- C5. A successful inbound plain conversion produces a native value at
the fresh storage address, resized to the tensor extents, whose elements
are copied from the tensor data; its storage address differs from the
foreign buffer address. -/
theorem plain_from_python_fresh_copy {α : Type} (tf : EigenTypeFacts)
    (t : Tensor α) (freshPtr : Nat)
    (hfresh : freshPtr ≠ t.ptr)
    (hlen : t.data.length =
      if tf.ndims = 1 then t.shape.getD 0 0
      else t.shape.getD 0 0 * t.shape.getD 1 0) :
    ∃ r : PlainValue α,
      from_python tf (Option.some t) freshPtr = Option.some r ∧
      r.ptr = freshPtr ∧ r.ptr ≠ t.ptr ∧
      r.rows = t.shape.getD 0 0 ∧
      r.cols = (if tf.ndims = 1 then 1 else t.shape.getD 1 0) ∧
      r.data = t.data := by
  by_cases h : tf.ndims = 1
  · rw [if_pos h] at hlen
    refine ⟨⟨freshPtr, t.shape.getD 0 0, 1,
        t.data.take (t.shape.getD 0 0)⟩, ?_, rfl, hfresh, rfl,
        by simp [h], ?_⟩
    · simp [from_python, h]
    · simp only [← hlen, List.take_length]
  · rw [if_neg h] at hlen
    refine ⟨⟨freshPtr, t.shape.getD 0 0, t.shape.getD 1 0,
        t.data.take (t.shape.getD 0 0 * t.shape.getD 1 0)⟩, ?_, rfl,
        hfresh, rfl, by simp [h], ?_⟩
    · simp [from_python, h]
    · simp only [← hlen, List.take_length]

/-- C5 witness: a 2 by 3 tensor at address 100 converts into a fresh
native value at address 200 with all six elements copied. -/
theorem plain_from_python_fresh_copy_witness :
    ∃ r : PlainValue Int,
      from_python ⟨2, false, 4, true⟩
        (Option.some ⟨100, [2, 3], [3, 1], Option.none,
          [1, 2, 3, 4, 5, 6]⟩) 200 = Option.some r ∧
      r.ptr = 200 ∧ r.ptr ≠ 100 ∧
      r.rows = 2 ∧
      r.cols = (if (2 : Nat) = 1 then 1 else 3) ∧
      r.data = [1, 2, 3, 4, 5, 6] :=
  plain_from_python_fresh_copy _ _ _ (by decide) (by decide)

/-- C6. Converting a plain native value outbound under any requested
policy and converting the emitted tensor back inbound through the same
type reproduces the extents and every element exactly; the inbound value
lives at the fresh inbound allocation. For one-dimensional types the
value is a vector, represented with a single column. -/
theorem plain_round_trip {α : Type} (tf : EigenTypeFacts)
    (v : PlainValue α) (policy : rv_policy) (f1 f2 : Nat)
    (hlen : v.data.length = v.rows * v.cols)
    (hvec : tf.ndims = 1 → v.cols = 1) :
    from_python tf (Option.some (from_cpp_const tf v policy f1).tensor) f2 =
      Option.some ⟨f2, v.rows, v.cols, v.data⟩ := by
  have hshape := from_cpp_const_tensor_shape tf v policy f1
  have hdata := from_cpp_const_tensor_data tf v policy f1
  by_cases h : tf.ndims = 1
  · have hc := hvec h
    have hsize : v.size = v.rows := by
      simp [PlainValue.size, hc]
    have hlen2 : v.data.length = v.rows := by
      simpa [hc] using hlen
    simp [from_python, h, hshape, hdata, hsize, hc, ← hlen2,
      List.take_length]
  · simp [from_python, h, hshape, hdata, ← hlen, List.take_length]

/-- C6 witness: a 2 by 2 matrix with elements 1, 2, 3, 4 survives the
round trip exactly under the automatic policy. -/
theorem plain_round_trip_witness :
    from_python ⟨2, false, 4, false⟩
      (Option.some (from_cpp_const ⟨2, false, 4, false⟩
        (⟨5, 2, 2, [1, 2, 3, 4]⟩ : PlainValue Int)
        rv_policy.automatic 3).tensor) 9 =
      Option.some ⟨9, 2, 2, [1, 2, 3, 4]⟩ :=
  plain_round_trip _ _ _ _ _ (by decide) (by decide)

/-- C7. Outbound conversion of a sum expression over equal-shaped
operands materializes the element-wise sums into fresh storage, hands
the materialized value to the plain caster, and the tensor handed to the
tensor caster carries the summed elements at a pointer distinct from
both operand pointers; the expression caster offers no inbound
conversion. -/
theorem xpr_sum_materializes {α : Type} [Add α] (tf : EigenTypeFacts)
    (a b : PlainValue α) (policy : rv_policy) (f1 f2 : Nat)
    (_hr : a.rows = b.rows) (_hc : a.cols = b.cols)
    (hf1a : f1 ≠ a.ptr) (hf1b : f1 ≠ b.ptr)
    (hf2a : f2 ≠ a.ptr) (hf2b : f2 ≠ b.ptr) :
    (xpr_sum_from_cpp tf a b policy f1 f2).tensor.data =
      List.zipWith (fun x y => x + y) a.data b.data ∧
    (xpr_sum_from_cpp tf a b policy f1 f2).tensor.ptr ≠ a.ptr ∧
    (xpr_sum_from_cpp tf a b policy f1 f2).tensor.ptr ≠ b.ptr ∧
    xpr_has_from_python = false := by
  have he : xpr_sum_from_cpp tf a b policy f1 f2 =
      from_cpp_const tf (materialize_xpr_sum a b f1)
        (if policy = rv_policy.automatic ∨
            policy = rv_policy.automatic_reference
         then rv_policy.move else policy) f2 :=
    rfl
  have hptr : (xpr_sum_from_cpp tf a b policy f1 f2).tensor.ptr = f1 ∨
      (xpr_sum_from_cpp tf a b policy f1 f2).tensor.ptr = f2 := by
    rw [he]
    rcases from_cpp_const_tensor_ptr_or tf (materialize_xpr_sum a b f1)
        (if policy = rv_policy.automatic ∨
            policy = rv_policy.automatic_reference
         then rv_policy.move else policy) f2 with h | h
    · exact Or.inl h
    · exact Or.inr h
  have hdata : (xpr_sum_from_cpp tf a b policy f1 f2).tensor.data =
      List.zipWith (fun x y => x + y) a.data b.data := by
    rw [he, from_cpp_const_tensor_data]
    rfl
  refine ⟨hdata, ?_, ?_, rfl⟩
  · rcases hptr with h | h <;> rw [h] <;> assumption
  · rcases hptr with h | h <;> rw [h] <;> assumption

/-- C7 witness: adding the vectors with elements 1, 2, 3 and 10, 20, 30
emits the sums 11, 22, 33 from storage distinct from both operands. -/
theorem xpr_sum_materializes_witness :
    (xpr_sum_from_cpp ⟨1, true, 4, false⟩
        (⟨10, 3, 1, [1, 2, 3]⟩ : PlainValue Int)
        (⟨20, 3, 1, [10, 20, 30]⟩ : PlainValue Int)
        rv_policy.automatic 30 40).tensor.data =
      List.zipWith (fun x y => x + y)
        ([1, 2, 3] : List Int) ([10, 20, 30] : List Int) ∧
    (xpr_sum_from_cpp ⟨1, true, 4, false⟩
        (⟨10, 3, 1, [1, 2, 3]⟩ : PlainValue Int)
        (⟨20, 3, 1, [10, 20, 30]⟩ : PlainValue Int)
        rv_policy.automatic 30 40).tensor.ptr ≠ 10 ∧
    (xpr_sum_from_cpp ⟨1, true, 4, false⟩
        (⟨10, 3, 1, [1, 2, 3]⟩ : PlainValue Int)
        (⟨20, 3, 1, [10, 20, 30]⟩ : PlainValue Int)
        rv_policy.automatic 30 40).tensor.ptr ≠ 20 ∧
    xpr_has_from_python = false :=
  xpr_sum_materializes _ _ _ _ _ _ (by decide) (by decide) (by decide)
    (by decide) (by decide) (by decide)

/-- C8. Inbound conversion reports incompatibility as a boolean result:
the plain and Map casters fail exactly when the delegated tensor caster
rejects the foreign object, and no other failure source exists on the
inbound path; in particular a dtype mismatch yields failure. -/
theorem from_python_failure_is_boolean {α : Type} (tf : EigenTypeFacts)
    (d r : Nat) (eo : List Nat → Bool) (so : List Int → Bool)
    (src : ForeignArray α) (freshPtr : Nat) :
    (from_python tf (tensor_caster_from_python d r eo so src) freshPtr =
        Option.none ↔
      tensor_caster_from_python d r eo so src = Option.none) ∧
    (map_from_python (tensor_caster_from_python d r eo so src) =
        Option.none ↔
      tensor_caster_from_python d r eo so src = Option.none) ∧
    from_python tf
      (tensor_caster_from_python (src.dtypeCode + 1) r eo so src)
      freshPtr = Option.none := by
  have hmis : tensor_caster_from_python (src.dtypeCode + 1) r eo so src =
      Option.none := by
    unfold tensor_caster_from_python
    rw [if_neg (by rintro ⟨hcon, -⟩; omega)]
  refine ⟨?_, Iff.rfl, by simp [hmis, from_python]⟩
  cases htc : tensor_caster_from_python d r eo so src with
  | none => simp [from_python]
  | some t =>
      simp only [from_python]
      constructor
      · intro hnone
        by_cases h : tf.ndims = 1 <;> simp [h] at hnone
      · intro hcon
        exact absurd hcon (by simp)

/-- C9. The const-reference outbound conversion never modifies the
caller value: it is returned unchanged for every policy, including an
effective move, and the storage handed out carries a copy of the caller
elements. -/
theorem const_from_cpp_preserves_caller {α : Type} (tf : EigenTypeFacts)
    (v : PlainValue α) (policy : rv_policy) (freshPtr : Nat) :
    (from_cpp_const tf v policy freshPtr).callerAfter = v ∧
    (from_cpp_const tf v policy freshPtr).tensor.data = v.data :=
  ⟨from_cpp_const_caller tf v policy freshPtr,
   from_cpp_const_tensor_data tf v policy freshPtr⟩

/-- C10. The Map caster accepts a rank-1 tensor for a one-axis view, yet
its conversion operator reads the extent at index 1, which lies outside
the rank-1 shape: the read at index 1 yields nothing, while the same
read on a rank-2 tensor is in bounds. -/
theorem map_cast_reads_shape_one_oob :
    map_from_python (tensor_caster_from_python 5 1
        (fun s => s == [3]) (fun st => st == [1])
        (⟨5, 77, [3], [1], [1, 2, 3]⟩ : ForeignArray Int)) =
      Option.some ⟨77, [3], [1], Option.none, [1, 2, 3]⟩ ∧
    (⟨77, [3], [1], Option.none, ([1, 2, 3] : List Int)⟩ :
      Tensor Int).shape.get? 1 = Option.none ∧
    map_operator_cast
      (⟨77, [3], [1], Option.none, ([1, 2, 3] : List Int)⟩ : Tensor Int) =
      Option.none ∧
    map_operator_cast
      (⟨77, [2, 3], [3, 1], Option.none,
        ([1, 2, 3, 4, 5, 6] : List Int)⟩ : Tensor Int) =
      Option.some (77, 2, 3, [1, 2, 3, 4, 5, 6]) := by
  decide

end NanobindEigen
